import Mathlib

/-!
Verification development for the Cummins-Generator-to-Home-Assistant repository.

The repository has two Python programs:
* `src/ccc10_headless.py` — scrapes generator telemetry (runtime hours, battery
  voltage, last exercise date) out of a shadow-DOM-heavy web dashboard and prints
  a JSON payload on success;
* `src/send_to_ha.py` — reads that JSON from stdin and publishes it over MQTT
  (qos 1, retain) to a broker.

This file shallowly embeds the data flow and control flow of both programs.
Pure string processing (Python `str.split`, `float(...)`, `re.search(r"\d{4}", ...)`,
the dateutil fuzzy date parse) is translated into executable Lean functions.
Effectful steps (Selenium waits/clicks, MQTT connect/publish, `sys.exit`,
screenshots, logging) are modelled by explicit scenario parameters and result
records that report the observable effects (exit code, screenshots taken,
error logs, resource release calls).
-/

namespace CumminsHA

/-! ## Publish process: `src/send_to_ha.py`

The paho-mqtt client delivers connect and publish acknowledgments from a
background network-loop thread.  `main()` does, in order (lines 103-113):
`client.connect(broker, port, 60)`, `client.loop_start()`, `time.sleep(1)`,
`client.publish(topic, payload, qos=1, retain=True)`,
`result.wait_for_publish()`.
-/

/-- Outcome taxonomy for the publish round trip (spec section 7: the publish
side is supposed to report `TransportFailure` when the broker does not confirm). -/
inductive PublishOutcome where
  | success
  | transportFailure
deriving DecidableEq, Repr

/-- `ackArrivedBy ackAt t`: has the broker acknowledgment (which fires at poll
step `ackAt`, or never when `ackAt = none`) been observed at or before step `t`? -/
def ackArrivedBy (ackAt : Option Nat) (t : Nat) : Bool :=
  match ackAt with
  | some a => decide (a ≤ t)
  | none => false

/-- Models paho's `MQTTMessageInfo.wait_for_publish(timeout=None)` as called at
src/send_to_ha.py line 113 (`result.wait_for_publish()`, no timeout argument):
the calling thread polls the published flag until it becomes true; with
`timeout=None` there is no timeout branch, so the loop only ever ends by the
acknowledgment arriving.  `fuel` counts polling iterations observed so far;
`none` means the wait is still blocked after that many iterations. -/
def wait_for_publish_from (ackAt : Option Nat) (t : Nat) : Nat → Option PublishOutcome
  | 0 => none
  | fuel + 1 =>
    if ackArrivedBy ackAt t then some PublishOutcome.success
    else wait_for_publish_from ackAt (t + 1) fuel

/-- The observable result of `wait_for_publish()` after `steps` polling
iterations, starting at step 0. -/
def wait_for_publish_observed (ackAt : Option Nat) (steps : Nat) : Option PublishOutcome :=
  wait_for_publish_from ackAt 0 steps

/-- src/send_to_ha.py line 107: `time.sleep(1)` — the only synchronization
between `client.loop_start()` and `client.publish(...)` is this fixed sleep. -/
def sleepSeconds : Nat := 1

/-- Time (seconds after `loop_start`) at which src/send_to_ha.py main() calls
`client.publish` (line 110).  The code between the sleep and the publish call
consults nothing: it does not read `client.is_connected()` nor any flag set by
the `on_connect` callback, so the publish time is the fixed sleep duration for
every connect-notification behavior `onConnectAt` (the time at which the
broker's CONNACK causes the background thread to run `on_connect`;
`none` = the notification never fires). -/
def publish_call_time (_onConnectAt : Option Nat) : Nat := sleepSeconds

/-- Whether the `on_connect` notification has fired at or before the moment
main() attempts the publish. -/
def connect_notified_before_publish (onConnectAt : Option Nat) : Bool :=
  ackArrivedBy onConnectAt (publish_call_time onConnectAt)

/-- Final state of one run of src/send_to_ha.py main(). -/
inductive SendOutcome where
  | exited (code : Nat)
  | hung
deriving DecidableEq, Repr

/-- Observable resource effects of one run of src/send_to_ha.py main().
`connectionAcquired`: `client.connect(...)` (line 103) succeeded, so a broker
connection was established.  `releaseCalls` / `loopStopCalls`: how many times
`client.disconnect()` / `client.loop_stop()` ran in the `finally` block
(lines 122-127). -/
structure SendToHaRun where
  connectionAcquired : Bool
  releaseCalls : Nat
  loopStopCalls : Nat
  outcome : SendOutcome
deriving DecidableEq, Repr

/-- Models src/send_to_ha.py main() (lines 78-127) over an execution scenario:
`inputEmpty`: stdin was empty after strip (line 85, exits 1 before creating the
client); `jsonValid`: `json.loads` succeeded (line 93; on failure the
`JSONDecodeError` handler exits 1 — the client was not yet created);
`connectSucceeds`: `client.connect` returned without raising (on failure the
broad `except` handler exits 1, and in the `finally` block
`client.is_connected()` is false so neither `loop_stop` nor `disconnect` runs);
`pubAckAt`: poll step at which the broker acknowledges the qos-1 publish
(`none` = never, in which case `result.wait_for_publish()` — no timeout —
blocks forever and the `finally` block is never reached);
`connectedAtCleanup`: what `client.is_connected()` reports when the `finally`
block runs (the broker may have dropped the connection by then).  The
`finally` block guards the release with `if client and client.is_connected():`,
so the release is skipped whenever that reports false. -/
def send_to_ha_main (inputEmpty jsonValid connectSucceeds : Bool)
    (pubAckAt : Option Nat) (connectedAtCleanup : Bool) : SendToHaRun :=
  if inputEmpty then ⟨false, 0, 0, SendOutcome.exited 1⟩
  else if !jsonValid then ⟨false, 0, 0, SendOutcome.exited 1⟩
  else if !connectSucceeds then ⟨false, 0, 0, SendOutcome.exited 1⟩
  else
    match pubAckAt with
    | none => ⟨true, 0, 0, SendOutcome.hung⟩
    | some _ =>
      if connectedAtCleanup then ⟨true, 1, 1, SendOutcome.exited 0⟩
      else ⟨true, 0, 0, SendOutcome.exited 0⟩

/-! ## Extraction process: `src/ccc10_headless.py` — DOM model and deep-scope search

The dashboard renders inside nested shadow DOMs.  A `Node` has a tag, its own
text, ordinary (light) children, and optionally an encapsulated shadow scope
(`shadowRoot`), itself a list of child nodes. -/

inductive Node where
  | mk (tag : String) (text : String) (children : List Node) (shadow : Option (List Node))

def Node.tag : Node → String
  | Node.mk t _ _ _ => t

def Node.children : Node → List Node
  | Node.mk _ _ cs _ => cs

def Node.shadow : Node → Option (List Node)
  | Node.mk _ _ _ sh => sh

mutual
/-- `root.querySelectorAll('*')` order: all light-DOM descendants of a
container (a document or a shadow root, given by its list of top-level
child nodes) in document order — pre-order, not entering shadow roots. -/
def lightListN : Node → List Node
  | Node.mk t x cs sh => Node.mk t x cs sh :: lightListL cs
def lightListL : List Node → List Node
  | [] => []
  | c :: cs => lightListN c ++ lightListL cs
end

/-- The shadow roots owned by the given nodes, in the order the nodes appear. -/
def shadowRootsOf (ns : List Node) : List (List Node) :=
  ns.filterMap Node.shadow

/-- Models the JavaScript `findInShadows` inside `find_deep_placeholder`
(src/ccc10_headless.py lines 217-234), with the CSS selector abstracted to a
per-node predicate `p`:

    const findInShadows = (root, selector) => {
        const el = root.querySelector(selector);        // first light-DOM hit
        if (el) return el;
        const hosts = root.querySelectorAll('*');       // then, and only then,
        for (const host of hosts) {                     // every shadow root of
            if (host.shadowRoot) {                      // a light descendant,
                const found = findInShadows(host.shadowRoot, selector);
                if (found) return found;                // depth-first
            }
        }
        return null;
    };

The whole light tree of the current root is searched before any shadow root is
entered.  `fuel` bounds the shadow-nesting recursion depth; the wrapper
`findInShadows` supplies enough fuel for the whole tree, so the bound is never
hit. -/
def findInShadowsF (p : Node → Bool) : Nat → List Node → Option Node
  | 0, _ => none
  | fuel + 1, cs =>
    match (lightListL cs).find? p with
    | some el => some el
    | none => (shadowRootsOf (lightListL cs)).findSome? (findInShadowsF p fuel)

mutual
/-- Maximum shadow-scope nesting depth of a tree / forest. -/
def shadowDepthN : Node → Nat
  | Node.mk _ _ cs none => shadowDepthL cs
  | Node.mk _ _ cs (some s) => max (shadowDepthL cs) (shadowDepthL s + 1)
def shadowDepthL : List Node → Nat
  | [] => 0
  | c :: cs => max (shadowDepthN c) (shadowDepthL cs)
end

/-- `find_deep_placeholder`'s search over a container `cs` (the children of
`document` on the first call): run the recursion with fuel that covers the
deepest shadow nesting present. -/
def findInShadows (p : Node → Bool) (cs : List Node) : Option Node :=
  findInShadowsF p (shadowDepthL cs + 1) cs

mutual
/-- Modelled from the spec: the traversal order claimed in sections 4.1/8 —
pre-order over the tree in which a node's encapsulated scope is walked at the
point the owning node is declared ("recursively walks into that scope's own
root before continuing sibling traversal"), i.e. the scope's subtree comes
right after its owning node, before the node's light children and siblings. -/
def claimedOrderN : Node → List Node
  | Node.mk t x cs none => Node.mk t x cs none :: claimedOrderL cs
  | Node.mk t x cs (some s) => Node.mk t x cs (some s) :: (claimedOrderL s ++ claimedOrderL cs)
def claimedOrderL : List Node → List Node
  | [] => []
  | c :: cs => claimedOrderN c ++ claimedOrderL cs
end

/-! ## String processing: Python `str.split()`, `float()`, `re.search(r"\d{4}", ...)`,
and the dateutil fuzzy date parse used by `generate_ha_payload`. -/

/-- Python `str.isspace` characters relevant here. -/
def isPySpace (c : Char) : Bool :=
  c == ' ' || c == '\t' || c == '\n' || c == '\r'

/-- Accumulate a finished token (kept in reverse) onto a token list, dropping
empty tokens. -/
def flushTok (cur : List Char) (rest : List String) : List String :=
  if cur.isEmpty then rest else String.mk cur.reverse :: rest

def pySplitChars : List Char → List Char → List String
  | [], cur => flushTok cur []
  | c :: cs, cur =>
    if isPySpace c then flushTok cur (pySplitChars cs [])
    else pySplitChars cs (c :: cur)

/-- Python `str.split()` with no argument (src/ccc10_headless.py line 408,
`runtime_text.split()`): split on runs of whitespace, discarding empty pieces. -/
def pySplit (s : String) : List String :=
  pySplitChars s.data []

/-- Strip leading and trailing whitespace, as Python `float` does on its
argument. -/
def trimChars (cs : List Char) : List Char :=
  ((cs.dropWhile isPySpace).reverse.dropWhile isPySpace).reverse

/-- Value of a non-empty all-digit character run. -/
def natFromDigitsAux : List Char → Nat → Option Nat
  | [], acc => some acc
  | c :: cs, acc =>
    if c.isDigit then natFromDigitsAux cs (acc * 10 + (c.toNat - 48)) else none

def digitsVal (cs : List Char) : Option Nat :=
  if cs.isEmpty then none else natFromDigitsAux cs 0

/-- Split a character run at the first `'.'`, if any. -/
def breakAtDot : List Char → List Char × Option (List Char)
  | [] => ([], none)
  | c :: rest =>
    if c = '.' then ([], some rest)
    else
      let p := breakAtDot rest
      (c :: p.1, p.2)

/-- Models Python `float(...)` (src/ccc10_headless.py lines 313-314) on the
plain decimal strings this scraper handles: optional sign, decimal digits with
an optional fractional part, surrounding whitespace stripped.  Any other shape
(in particular the `"NOT_FOUND"` sentinel, or an empty string) raises
`ValueError` in Python, modelled as `none`.  The parts are
(negative?, integer part, fractional part, number of fractional digits). -/
def parseDecimalParts (s : String) : Option (Bool × Nat × Nat × Nat) :=
  let t := trimChars s.data
  let sv : Bool × List Char :=
    match t with
    | '-' :: rest => (true, rest)
    | '+' :: rest => (false, rest)
    | _ => (false, t)
  match breakAtDot sv.2 with
  | (intPart, none) =>
    match digitsVal intPart with
    | some n => some (sv.1, n, 0, 0)
    | none => none
  | (intPart, some fracPart) =>
    if fracPart.contains '.' then none
    else if intPart.isEmpty && fracPart.isEmpty then none
    else
      let iv : Option Nat := if intPart.isEmpty then some 0 else digitsVal intPart
      let fv : Option Nat := if fracPart.isEmpty then some 0 else digitsVal fracPart
      match iv, fv with
      | some i, some f => some (sv.1, i, f, fracPart.length)
      | _, _ => none

/-- The exact rational value of a parsed decimal string. -/
def ratOfParts : Bool × Nat × Nat × Nat → ℚ
  | (neg, i, f, k) => (if neg then (-1 : ℚ) else 1) * ((i : ℚ) + (f : ℚ) / (10 : ℚ) ^ k)

/-- Python `float(...)` as an exact rational. -/
def parseDecimal (s : String) : Option ℚ :=
  (parseDecimalParts s).map ratOfParts

/-- `re.search(r"\d{4}", text)` (src/ccc10_headless.py line 388) succeeds iff
the text contains four consecutive decimal digits. -/
def hasFourDigitRun : List Char → Bool
  | a :: b :: c :: d :: rest =>
    (a.isDigit && b.isDigit && c.isDigit && d.isDigit) || hasFourDigitRun (b :: c :: d :: rest)
  | _ => false

def hasFourConsecutiveDigits (s : String) : Bool :=
  hasFourDigitRun s.data

/-- Token classes of dateutil's lexer: runs of digits, runs of letters,
anything else is a separator. -/
inductive CharKind where
  | digit
  | letter
  | other
deriving DecidableEq, Repr

def charKind (c : Char) : CharKind :=
  if c.isDigit then CharKind.digit
  else if c.isAlpha then CharKind.letter
  else CharKind.other

/-- Lexer of `dateutil.parser.parse`: the input is cut into maximal runs of
letters and maximal runs of digits (so `"4th"` yields `"4"`, `"th"`);
punctuation and spaces separate tokens and are dropped. -/
def tokenizeAux : List Char → List Char → CharKind → List String
  | [], cur, _ => flushTok cur []
  | c :: cs, cur, k =>
    match charKind c with
    | CharKind.other => flushTok cur (tokenizeAux cs [] CharKind.other)
    | ck => if ck = k then tokenizeAux cs (c :: cur) k else flushTok cur (tokenizeAux cs [c] ck)

def tokenize (s : String) : List String :=
  tokenizeAux s.data [] CharKind.other

/-- Case-insensitive month-name lookup, full names and the abbreviations
dateutil knows. -/
def monthFromName (tok : String) : Option Nat :=
  match String.mk (tok.data.map Char.toLower) with
  | "january" | "jan" => some 1
  | "february" | "feb" => some 2
  | "march" | "mar" => some 3
  | "april" | "apr" => some 4
  | "may" => some 5
  | "june" | "jun" => some 6
  | "july" | "jul" => some 7
  | "august" | "aug" => some 8
  | "september" | "sep" | "sept" => some 9
  | "october" | "oct" => some 10
  | "november" | "nov" => some 11
  | "december" | "dec" => some 12
  | _ => none

structure DateParts where
  year : Option Nat
  month : Option Nat
  day : Option Nat
deriving DecidableEq, Repr

/-- One step of the fuzzy scan: a month name sets the month, a 4-digit number
sets the year, another number between 1 and 31 sets the day if it is still
unset; every other token (weekday names, ordinal suffixes, filler words,
as in `"Completed on Tuesday, March 4th 2025"`) is skipped, which is what
`fuzzy=True` does. -/
def applyTok (st : DateParts) (tok : String) : DateParts :=
  match monthFromName tok with
  | some m => DateParts.mk st.year (some m) st.day
  | none =>
    match digitsVal tok.data with
    | some n =>
      if tok.data.length = 4 then DateParts.mk (some n) st.month st.day
      else if 1 ≤ n ∧ n ≤ 31 then
        match st.day with
        | none => DateParts.mk st.year st.month (some n)
        | some _ => st
      else st
    | none => st

/-- Models `dateutil.parser.parse(exercise_date, fuzzy=True)`
(src/ccc10_headless.py line 304) on strings that carry a complete
month-name / day / 4-digit-year date, the only shape this scraper feeds it
("Completed on <weekday>, <Month> <day>(st|nd|rd|th) <year>").  Strings from
which no complete date can be collected are treated as a `ParserError`
(`none`); the real library would fill missing fields from the current date,
a behavior none of the claims depends on. -/
def fuzzyParseDate (s : String) : Option (Nat × Nat × Nat) :=
  let st := (tokenize s).foldl applyTok (DateParts.mk none none none)
  match st.year, st.month, st.day with
  | some y, some m, some d =>
    if 1 ≤ m ∧ m ≤ 12 ∧ 1 ≤ d ∧ d ≤ 31 then some (y, m, d) else none
  | _, _, _ => none

def pad2 (n : Nat) : String :=
  if n < 10 then "0" ++ toString n else toString n

/-- `datetime(...).replace(tzinfo=timezone.utc).isoformat()` for a date with
time 00:00:00: `YYYY-MM-DDT00:00:00+00:00`. -/
def isoUtcMidnight (ymd : Nat × Nat × Nat) : String :=
  toString ymd.1 ++ "-" ++ pad2 ymd.2.1 ++ "-" ++ pad2 ymd.2.2 ++ "T00:00:00+00:00"

/-- The `"generator"` object built by `generate_ha_payload`
(src/ccc10_headless.py lines 311-318).  The fourth field of the Python dict,
`last_updated`, is the wall-clock time `datetime.now()` at payload-build time
and is outside this pure model. -/
structure GenPayload where
  runtime_hours : ℚ
  battery_voltage : ℚ
  last_exercise_date : String
deriving DecidableEq, Repr

/-- Models `generate_ha_payload(runtime, voltage, exercise_date)`
(src/ccc10_headless.py lines 296-319): first the fuzzy date parse (a
`ParserError` is caught and turns into `sys.exit(1)`), then `float(runtime)`
and `float(voltage)` (a `ValueError` propagates to main's broad handler, which
also exits 1).  Every failure is `none`; there is no numeric default. -/
def generate_ha_payload (runtime voltage exercise_date : String) : Option GenPayload :=
  match fuzzyParseDate exercise_date with
  | none => none
  | some ymd =>
    match parseDecimal runtime, parseDecimal voltage with
    | some r, some v => some (GenPayload.mk r v (isoUtcMidnight ymd))
    | _, _ => none

/-! ## Extraction process: orchestrator steps

Selenium interactions are modelled by scenario booleans (did the awaited
element turn up / did the click go through), and each step reports its
observable effects: the returned value or the `sys.exit` code, whether an
error was logged, and which diagnostic screenshots were written. -/

/-- A Python call either returns a value or terminates the process through
`sys.exit(code)` (a raised `SystemExit` that nothing catches). -/
inductive ProcResult (α : Type) where
  | ret (a : α)
  | exited (code : Nat)
deriving DecidableEq, Repr

structure ClickPulldownRun where
  result : ProcResult Bool
  loggedError : Bool
  screenshotTaken : Option String
deriving DecidableEq, Repr

/-- Models `click_pulldown(driver, text_on_dashboard)`
(src/ccc10_headless.py lines 113-127).  `stepOk` is the scenario: the
15-second `WebDriverWait` found a clickable `<p>` containing the text and the
click raised nothing.  On that path the function returns `True`; on any
exception it logs the error, saves `click_pulldown_debug_render.png`, and
calls `sys.exit(1)`.  No path returns `False` or `None`. -/
def click_pulldown (stepOk : Bool) : ClickPulldownRun :=
  if stepOk then ⟨ProcResult.ret true, false, none⟩
  else ⟨ProcResult.exited 1, true, some "click_pulldown_debug_render.png"⟩

structure ScrapeRun where
  result : ProcResult String
  loggedError : Bool
  screenshots : List String
deriving DecidableEq, Repr

/-- Models `scrape_runtime(driver)` (src/ccc10_headless.py lines 397-409):
`click_pulldown` for the Maintenance pulldown, the dead `if not success`
branch (error log, screenshot `runtime_debug_render.png`), then
`find_runtime_in_shadow_roots` whose raw result `runtimeRaw` (the element's
`innerText`, or the string `"NOT_FOUND"`) is split on whitespace, keeping the
first word (`words_list[0]`; an empty split list raises `IndexError`, which
main's broad handler turns into exit 1).  `loggedError` records whether an
error-level log was written inside the step itself; note that a `"NOT_FOUND"`
raw text is split and returned like any other value — this step writes no
error log, takes no screenshot and does not exit for it. -/
def scrape_runtime (stepOk : Bool) (runtimeRaw : String) : ScrapeRun :=
  let c := click_pulldown stepOk
  match c.result with
  | ProcResult.exited n => ⟨ProcResult.exited n, c.loggedError, c.screenshotTaken.toList⟩
  | ProcResult.ret success =>
    if !success then
      ⟨ProcResult.exited 1, true, c.screenshotTaken.toList ++ ["runtime_debug_render.png"]⟩
    else
      match (pySplit runtimeRaw).head? with
      | some w => ⟨ProcResult.ret w, c.loggedError, c.screenshotTaken.toList⟩
      | none => ⟨ProcResult.exited 1, c.loggedError, c.screenshotTaken.toList⟩

/-- Models `scrape_battery(driver)` (src/ccc10_headless.py lines 362-371):
`click_pulldown` for the Generator Data pulldown, the dead `if not success`
branch (error log, screenshot `battery_debug_render.png`), then
`find_battery_voltage_in_shadow_roots`, whose result `batteryRaw` (a matched
number string, or `"NOT_FOUND"` — the JS tail `|| "NOT_FOUND"` makes it always
a string) is returned as is: like the runtime step, a `"NOT_FOUND"` sentinel
is passed on with no error log, no screenshot and no exit. -/
def scrape_battery (stepOk : Bool) (batteryRaw : String) : ScrapeRun :=
  let c := click_pulldown stepOk
  match c.result with
  | ProcResult.exited n => ⟨ProcResult.exited n, c.loggedError, c.screenshotTaken.toList⟩
  | ProcResult.ret success =>
    if !success then
      ⟨ProcResult.exited 1, true, c.screenshotTaken.toList ++ ["battery_debug_render.png"]⟩
    else ⟨ProcResult.ret batteryRaw, c.loggedError, c.screenshotTaken.toList⟩

/-- Models `scrape_genset_exercise(driver)` (src/ccc10_headless.py
lines 374-394): `click_pulldown` for Notifications (dead `if not success`
branch), `click_tab_smart` for the Events tab (`tabOk`; on `False` it runs
`logging.error`, saves `genset_debug_render.png` and exits 1), then
`find_genset_exercise_in_shadow_roots`, whose result `gensetRaw` is either a
trimmed sibling text or JS `null` (`none`).  The result is gated by
`if genset_exercise_text and re.search(r"\d{4}", genset_exercise_text)`:
`None` and `""` are falsy, and the regex wants four consecutive digits;
otherwise `logging.error`, screenshot `genset_debug_render.png`, exit 1. -/
def scrape_genset_exercise (stepOk tabOk : Bool) (gensetRaw : Option String) : ScrapeRun :=
  let c := click_pulldown stepOk
  match c.result with
  | ProcResult.exited n => ⟨ProcResult.exited n, c.loggedError, c.screenshotTaken.toList⟩
  | ProcResult.ret success =>
    if !success then
      ⟨ProcResult.exited 1, true, c.screenshotTaken.toList ++ ["genset_debug_render.png"]⟩
    else if !tabOk then
      ⟨ProcResult.exited 1, true, c.screenshotTaken.toList ++ ["genset_debug_render.png"]⟩
    else
      match gensetRaw with
      | none => ⟨ProcResult.exited 1, true, c.screenshotTaken.toList ++ ["genset_debug_render.png"]⟩
      | some g =>
        if (g != "") && hasFourConsecutiveDigits g then
          ⟨ProcResult.ret g, c.loggedError, c.screenshotTaken.toList⟩
        else ⟨ProcResult.exited 1, true, c.screenshotTaken.toList ++ ["genset_debug_render.png"]⟩

/-- Observable result of one run of `main()` in src/ccc10_headless.py:
what was printed on stdout (the JSON payload line, or nothing), the process
exit code, and how many times `driver.quit()` ran. -/
structure MainRun where
  stdout : Option GenPayload
  exitCode : Nat
  driverQuitCalls : Nat
deriving DecidableEq, Repr

/-- Models `main()` of src/ccc10_headless.py (lines 412-437).  `loginOk`
collapses `start_sign_in` + `do_login` (each `do_login` failure branch logs,
screenshots and exits 1).  The three scrape steps run in order; any
`sys.exit(1)` inside them propagates as `SystemExit`, which the broad
`except Exception` does not catch, so the `finally` still runs `driver.quit()`
and the process exits 1.  The `any(v is None ...)` guard at line 421 never
fires because all three values are strings on every path that reaches it.
On success the payload is printed and the exit code is 0; `driver.quit()` runs
exactly once in the `finally` block on every path. -/
def ccc10_main (loginOk maintOk genOk notifOk tabOk : Bool)
    (runtimeRaw batteryRaw : String) (gensetRaw : Option String) : MainRun :=
  if !loginOk then ⟨none, 1, 1⟩
  else
    match (scrape_runtime maintOk runtimeRaw).result with
    | ProcResult.exited _ => ⟨none, 1, 1⟩
    | ProcResult.ret runtimeValue =>
      match (scrape_battery genOk batteryRaw).result with
      | ProcResult.exited _ => ⟨none, 1, 1⟩
      | ProcResult.ret batteryValue =>
        match (scrape_genset_exercise notifOk tabOk gensetRaw).result with
        | ProcResult.exited _ => ⟨none, 1, 1⟩
        | ProcResult.ret gensetValue =>
          match generate_ha_payload runtimeValue batteryValue gensetValue with
          | none => ⟨none, 1, 1⟩
          | some payload => ⟨some payload, 0, 1⟩

/-! ## Sign-in step (`start_sign_in`) and login (`do_login`) -/

/-- A rendered element as seen by Selenium: tag, whether `is_displayed()` is
true, whether it is an interactive control, and its ancestor chain (immediate
parent first). -/
inductive Element where
  | mk (tag : String) (visible : Bool) (interactive : Bool) (ancestors : List Element)

def Element.visible : Element → Bool
  | Element.mk _ v _ _ => v

def Element.interactive : Element → Bool
  | Element.mk _ _ i _ => i

def Element.ancestors : Element → List Element
  | Element.mk _ _ _ a => a

/-- The element `find_element(By.XPATH, "..")` resolves to: the immediate
parent. -/
def Element.parentNode (e : Element) : Option Element :=
  e.ancestors.head?

/-- src/ccc10_headless.py line 344: `target_span = elements[0]` — the first
element whose text contains the sign-in caption, taken unconditionally (the
per-candidate `is_displayed()` values are only written to the log on
lines 334-341). -/
def sign_in_candidate (els : List Element) : Option Element :=
  els.head?

/-- Modelled from the spec (section 4.6: "visually ranking candidates and
selecting the first visible one"): the selection the claim describes. -/
def spec_sign_in_candidate (els : List Element) : Option Element :=
  els.find? Element.visible

/-- Modelled from the spec (section 4.6: "clicking the nearest interactive
ancestor rather than the matched text node itself"): the click target the
claim describes. -/
def spec_click_target (e : Element) : Option Element :=
  e.ancestors.find? Element.interactive

structure SignInRun where
  clickedTarget : Option Element
  loggedError : Bool
  screenshotTaken : Option String
  exited : Option Nat

/-- Models `start_sign_in(driver, url)` (src/ccc10_headless.py lines 322-359)
on the list `els` of elements matching the SIGN IN text.  When the list is
empty, the `if elements:` guard (line 343) simply falls through: the function
returns normally with no error log, no screenshot and no exit, and `main`
proceeds to `do_login`.  When it is non-empty, the first element's immediate
parent (`find_element(By.XPATH, "..")`) is clicked.  The two `except` clauses
catch only `requests` exceptions, which the Selenium calls in the body never
raise. -/
def start_sign_in (els : List Element) : SignInRun :=
  match sign_in_candidate els with
  | none => ⟨none, false, none, none⟩
  | some e => ⟨e.parentNode, false, none, none⟩

structure LoginRun where
  exited : Option Nat
  loggedError : Bool
  screenshotTaken : Option String
deriving DecidableEq, Repr

/-- Models `do_login(driver)` (src/ccc10_headless.py lines 147-184) over
whether `find_deep_placeholder` located the username field, the password
field, and the submit button.  Each miss logs an error, saves
`login_debug_render.png`, and exits 1; otherwise the login proceeds. -/
def do_login (userFound passFound buttonFound : Bool) : LoginRun :=
  if !userFound then ⟨some 1, true, some "login_debug_render.png"⟩
  else if !passFound then ⟨some 1, true, some "login_debug_render.png"⟩
  else if !buttonFound then ⟨some 1, true, some "login_debug_render.png"⟩
  else ⟨none, false, none⟩

/-- The condition of the dead `if not success:` branch after the
`click_pulldown` call in `scrape_genset_exercise` (src/ccc10_headless.py
lines 376-380); the branch runs only when `click_pulldown` returns `False`. -/
def genset_not_success_branch (stepOk : Bool) : Bool :=
  match (click_pulldown stepOk).result with
  | ProcResult.ret success => !success
  | ProcResult.exited _ => false

/-! ## Concrete test data for the traversal and sign-in claims -/

/-- A node the selector predicate matches, placed inside shadow scopes. -/
def targetNode : Node := Node.mk "target" "inshadow" [] none

/-- Selector-mode predicate of the Element Locator: match on the tag. -/
def isTargetTag (n : Node) : Bool := n.tag == "target"

/-- A forest with the target behind `k` nested shadow scopes. -/
def nestTree : Nat → Node
  | 0 => targetNode
  | k + 1 => Node.mk "host" "" [] (some [nestTree k])

/-- A host node declared first, owning a shadow scope that contains the
target. -/
def shadowHostNode : Node := Node.mk "div" "" [] (some [targetNode])

/-- A matching node sitting later in the light tree, after the host. -/
def lightTargetNode : Node := Node.mk "target" "light" [] none

def btnEl : Element := Element.mk "button" true true []

def divEl : Element := Element.mk "div" true false []

/-- An invisible sign-in text match whose immediate parent is a
non-interactive `div`; the interactive `button` is one level further up. -/
def spanHidden : Element := Element.mk "span" false false [divEl, btnEl]

/-- A visible sign-in text match, listed after the invisible one. -/
def spanVisible : Element := Element.mk "span" true false [btnEl]

/-! ## Helper lemmas -/

theorem wait_for_publish_from_none (n : Nat) :
    ∀ t : Nat, wait_for_publish_from none t n = none := by
  induction n with
  | zero => intro t; rfl
  | succ k ih =>
    intro t
    simp [wait_for_publish_from, ackArrivedBy, ih]

theorem wait_for_publish_from_some {ackAt : Option Nat} {r : PublishOutcome} :
    ∀ (n t : Nat), wait_for_publish_from ackAt t n = some r →
      r = PublishOutcome.success ∧ ∃ s, ackAt = some s ∧ s ≤ t + n := by
  intro n
  induction n with
  | zero => intro t h; exact absurd h (by simp [wait_for_publish_from])
  | succ k ih =>
    intro t h
    rw [wait_for_publish_from] at h
    by_cases hack : ackArrivedBy ackAt t = true
    · rw [if_pos hack] at h
      refine ⟨by injection h with h; exact h.symm ▸ rfl, ?_⟩
      match hA : ackAt with
      | some a =>
        simp only [ackArrivedBy, decide_eq_true_eq] at hack
        exact ⟨a, rfl, by omega⟩
      | none => simp [ackArrivedBy] at hack
    · rw [if_neg hack] at h
      obtain ⟨hr, s, hs, hle⟩ := ih (t + 1) h
      exact ⟨hr, s, hs, by omega⟩

theorem parseDecimal_notfound : parseDecimal "NOT_FOUND" = none := by
  unfold parseDecimal
  rw [show parseDecimalParts "NOT_FOUND" = none from by decide]
  rfl

theorem generate_notfound_runtime (v g : String) :
    generate_ha_payload "NOT_FOUND" v g = none := by
  unfold generate_ha_payload
  split
  · rfl
  · simp [parseDecimal_notfound]

theorem generate_notfound_voltage (r g : String) :
    generate_ha_payload r "NOT_FOUND" g = none := by
  unfold generate_ha_payload
  split
  · rfl
  · rw [parseDecimal_notfound]
    cases parseDecimal r <;> rfl

theorem scrape_runtime_ret {ok : Bool} {raw w : String}
    (h : (scrape_runtime ok raw).result = ProcResult.ret w) :
    ok = true ∧ (pySplit raw).head? = some w := by
  cases ok with
  | false => simp [scrape_runtime, click_pulldown] at h
  | true =>
    refine ⟨rfl, ?_⟩
    cases hx : (pySplit raw).head? with
    | none => simp [scrape_runtime, click_pulldown, hx] at h
    | some v =>
      simp only [scrape_runtime, click_pulldown, if_pos, hx] at h
      simp at h
      rw [h]

theorem scrape_battery_ret {ok : Bool} {raw w : String}
    (h : (scrape_battery ok raw).result = ProcResult.ret w) :
    ok = true ∧ w = raw := by
  cases ok with
  | false => simp [scrape_battery, click_pulldown] at h
  | true =>
    refine ⟨rfl, ?_⟩
    simp [scrape_battery, click_pulldown] at h
    exact h.symm

theorem scrape_genset_ret {ok tab : Bool} {gr : Option String} {w : String}
    (h : (scrape_genset_exercise ok tab gr).result = ProcResult.ret w) :
    gr = some w ∧ w ≠ "" ∧ hasFourConsecutiveDigits w = true := by
  cases ok with
  | false => simp [scrape_genset_exercise, click_pulldown] at h
  | true =>
    cases tab with
    | false => simp [scrape_genset_exercise, click_pulldown] at h
    | true =>
      cases gr with
      | none => simp [scrape_genset_exercise, click_pulldown] at h
      | some g =>
        by_cases hg : ((g != "") && hasFourConsecutiveDigits g) = true
        · simp [scrape_genset_exercise, click_pulldown, hg] at h
          obtain ⟨hne, hfour⟩ := Bool.and_eq_true_iff.mp hg
          subst h
          exact ⟨rfl, bne_iff_ne.mp hne, hfour⟩
        · simp [scrape_genset_exercise, click_pulldown, hg] at h

theorem shadowDepthL_nestTree (k : Nat) : shadowDepthL [nestTree k] = k := by
  induction k with
  | zero => rfl
  | succ k ih =>
    have ih2 : shadowDepthN (nestTree k) = k := by
      have hL : shadowDepthL [nestTree k] = max (shadowDepthN (nestTree k)) 0 := rfl
      rw [hL] at ih
      simpa using ih
    simp [nestTree, shadowDepthL, shadowDepthN, ih2]

theorem findInShadowsF_nestTree (k : Nat) :
    ∀ j : Nat, findInShadowsF isTargetTag (k + 1 + j) [nestTree k] = some targetNode := by
  induction k with
  | zero =>
    intro j
    have h1 : 0 + 1 + j = j + 1 := by omega
    rw [h1]
    rfl
  | succ k ih =>
    intro j
    have h1 : k + 1 + 1 + j = (k + 1 + j) + 1 := by omega
    rw [h1, findInShadowsF]
    simp only [show (lightListL [nestTree (k + 1)]).find? isTargetTag = none from rfl,
      show shadowRootsOf (lightListL [nestTree (k + 1)]) = [[nestTree k]] from rfl,
      List.findSome?, ih j]

/-! ## Claim theorems -/

/-- C1, counterexample.  The claim states that when the broker never
acknowledges, the publish call eventually reports a `TransportFailure` within
a bounded wait.  False: `wait_for_publish()` is invoked with no timeout, so
for the never-acknowledging broker (`ackAt = none`) there is no number of
polling iterations after which it reports anything — it blocks forever and
never produces `transportFailure`. -/
theorem C1_counterexample :
    ¬ ∃ n, wait_for_publish_observed none n = some PublishOutcome.transportFailure := by
  rintro ⟨n, h⟩
  rw [wait_for_publish_observed, wait_for_publish_from_none] at h
  exact Option.noConfusion h

/-- C1, amended.  The publish call never reports success before the broker's
acknowledgment is observed (any success report implies the ack arrived within
the observed iterations), and success is the only outcome it can ever report;
but when the broker never acknowledges, the call reports nothing at any
number of polling iterations — it blocks forever instead of reporting a
`TransportFailure` within a bounded wait. -/
theorem C1_amended_holds :
    (∀ (ackAt : Option Nat) (n : Nat),
        wait_for_publish_observed ackAt n = some PublishOutcome.success →
        ∃ s, ackAt = some s ∧ s ≤ n) ∧
    (∀ n : Nat, wait_for_publish_observed none n = none) ∧
    (∀ (ackAt : Option Nat) (n : Nat) (r : PublishOutcome),
        wait_for_publish_observed ackAt n = some r → r = PublishOutcome.success) := by
  refine ⟨?_, ?_, ?_⟩
  · intro a n h
    obtain ⟨_, s, hs, hle⟩ := wait_for_publish_from_some n 0 h
    exact ⟨s, hs, by omega⟩
  · intro n
    exact wait_for_publish_from_none n 0
  · intro a n r h
    exact (wait_for_publish_from_some n 0 h).1

/-- C1, witness: a broker that acknowledges at step 0 makes the wait report
success within one iteration, and the theorem then yields that the ack
arrived in time. -/
theorem C1_witness : ∃ s, (some 0 : Option Nat) = some s ∧ s ≤ 1 :=
  C1_amended_holds.1 (some 0) 1 (by decide)

/-- C7, counterexample.  The claim states the publish is never attempted
before the `on_connect` notification has fired.  False: main() sleeps one
second after `loop_start` and then publishes unconditionally; in a run where
the broker's CONNACK arrives only at t = 2 s, the publish is attempted at
t = 1 s, before the notification. -/
theorem C7_counterexample :
    publish_call_time (some 2) = 1 ∧ connect_notified_before_publish (some 2) = false := by
  decide

/-- C7, amended.  The publish is attempted at the fixed time
`sleepSeconds` = 1 s after `loop_start` for every connect-notification
behavior — the notification is never consulted — so the publish happens after
the notification exactly when the notification fires within the sleep, and a
never-firing notification does not prevent the publish. -/
theorem C7_amended_holds :
    (∀ onConnectAt : Option Nat, publish_call_time onConnectAt = sleepSeconds) ∧
    (∀ t : Nat, connect_notified_before_publish (some t) = decide (t ≤ sleepSeconds)) ∧
    connect_notified_before_publish none = false :=
  ⟨fun _ => rfl, fun _ => rfl, rfl⟩

/-- C8, counterexample.  The claim states the acquired MQTT connection is
released exactly once on every exit path.  False: in a run where the
connection was acquired, the publish was acknowledged, and the broker dropped
the link before cleanup (`is_connected()` false in the `finally` block), the
run ends with zero `disconnect` calls. -/
theorem C8_counterexample :
    (send_to_ha_main false true true (some 0) false).connectionAcquired = true ∧
    (send_to_ha_main false true true (some 0) false).releaseCalls = 0 ∧
    (send_to_ha_main false true true (some 0) false).outcome = SendOutcome.exited 0 := by
  decide

/-- C8, amended.  The browser session is released exactly once
(`driver.quit()` in the `finally` block) on every exit path of the extraction
process; the MQTT client is released exactly once only on exit paths where
the input was non-empty, the JSON parsed, the connection was acquired, the
publish was acknowledged, and the client still reports itself connected at
cleanup time — on every other path the release is skipped. -/
theorem C8_amended_holds :
    (∀ (loginOk maintOk genOk notifOk tabOk : Bool) (runtimeRaw batteryRaw : String)
        (gensetRaw : Option String),
        (ccc10_main loginOk maintOk genOk notifOk tabOk
          runtimeRaw batteryRaw gensetRaw).driverQuitCalls = 1) ∧
    (∀ (inputEmpty jsonValid connectSucceeds : Bool) (pubAckAt : Option Nat)
        (connectedAtCleanup : Bool),
        (send_to_ha_main inputEmpty jsonValid connectSucceeds pubAckAt
          connectedAtCleanup).releaseCalls =
          if !inputEmpty && jsonValid && connectSucceeds && pubAckAt.isSome && connectedAtCleanup
          then 1 else 0) := by
  constructor
  · intro l m g n t r b gr
    unfold ccc10_main
    repeat' split
    all_goals rfl
  · intro ie jv cs a cac
    cases ie <;> cases jv <;> cases cs <;> cases cac <;> cases a <;> rfl

/-- C3, counterexample.  The claim states every failing orchestrator step
logs the error, captures a screenshot, and terminates with a non-zero exit,
with no step silently continuing after its target was not found.  False for
the sign-in trigger: when no element matches the sign-in button text,
`start_sign_in` falls through the `if elements:` guard and returns normally —
no error log, no screenshot, no exit — and main proceeds to `do_login`. -/
theorem C3_counterexample :
    (start_sign_in []).exited = none ∧ (start_sign_in []).loggedError = false ∧
    (start_sign_in []).screenshotTaken = none :=
  ⟨rfl, rfl, rfl⟩

/-- C3, amended.  The pulldown-navigation step (`click_pulldown`), the login
step (`do_login`, for each of its three lookup failures), the Events tab
navigation inside `scrape_genset_exercise`, and the genset-exercise gate
(missing or date-less text) each log the error, capture a diagnostic
screenshot, and exit 1 when their target is not found.  But two step kinds
violate the original claim: the sign-in trigger with no matching element
silently continues to the next step with no error log, no screenshot and no
exit; and the runtime and battery field-extraction steps, when their finder
reports the `"NOT_FOUND"` sentinel, write no error log, take no screenshot,
do not exit, and pass the sentinel on to the next step (the process fails
only later, at float conversion during payload construction). -/
theorem C3_amended_holds :
    (∀ stepOk : Bool, stepOk = false →
        (click_pulldown stepOk).result = ProcResult.exited 1 ∧
        (click_pulldown stepOk).loggedError = true ∧
        (click_pulldown stepOk).screenshotTaken = some "click_pulldown_debug_render.png") ∧
    (∀ userFound passFound buttonFound : Bool,
        userFound = false ∨ passFound = false ∨ buttonFound = false →
        (do_login userFound passFound buttonFound).exited = some 1 ∧
        (do_login userFound passFound buttonFound).loggedError = true ∧
        (do_login userFound passFound buttonFound).screenshotTaken =
          some "login_debug_render.png") ∧
    (∀ gensetRaw : Option String,
        (scrape_genset_exercise true false gensetRaw).result = ProcResult.exited 1 ∧
        (scrape_genset_exercise true false gensetRaw).loggedError = true ∧
        (scrape_genset_exercise true false gensetRaw).screenshots =
          ["genset_debug_render.png"]) ∧
    ((scrape_genset_exercise true true none).result = ProcResult.exited 1 ∧
        (scrape_genset_exercise true true none).loggedError = true ∧
        (scrape_genset_exercise true true none).screenshots = ["genset_debug_render.png"]) ∧
    (∀ g : String, ((g != "") && hasFourConsecutiveDigits g) = false →
        (scrape_genset_exercise true true (some g)).result = ProcResult.exited 1 ∧
        (scrape_genset_exercise true true (some g)).loggedError = true ∧
        (scrape_genset_exercise true true (some g)).screenshots =
          ["genset_debug_render.png"]) ∧
    ((scrape_runtime true "NOT_FOUND").result = ProcResult.ret "NOT_FOUND" ∧
        (scrape_runtime true "NOT_FOUND").loggedError = false ∧
        (scrape_runtime true "NOT_FOUND").screenshots = []) ∧
    ((scrape_battery true "NOT_FOUND").result = ProcResult.ret "NOT_FOUND" ∧
        (scrape_battery true "NOT_FOUND").loggedError = false ∧
        (scrape_battery true "NOT_FOUND").screenshots = []) ∧
    ((start_sign_in []).exited = none ∧ (start_sign_in []).loggedError = false ∧
        (start_sign_in []).screenshotTaken = none) := by
  refine ⟨?_, ?_, ?_, ⟨rfl, rfl, rfl⟩, ?_, ⟨rfl, rfl, rfl⟩, ⟨rfl, rfl, rfl⟩, rfl, rfl, rfl⟩
  · intro s h
    subst h
    exact ⟨rfl, rfl, rfl⟩
  · intro u p b h
    rcases h with h | h | h
    · subst h
      exact ⟨rfl, rfl, rfl⟩
    · subst h
      cases u <;> exact ⟨rfl, rfl, rfl⟩
    · subst h
      cases u <;> cases p <;> exact ⟨rfl, rfl, rfl⟩
  · intro gr
    exact ⟨rfl, rfl, rfl⟩
  · intro g hg
    refine ⟨?_, ?_, ?_⟩ <;> simp [scrape_genset_exercise, click_pulldown, hg]

/-- C3, witness: a failed pulldown and a missing username field both follow
the fatal pattern (log, screenshot, exit 1), and a scraped exercise text with
no four-digit run is rejected with the same pattern. -/
theorem C3_witness :
    ((click_pulldown false).result = ProcResult.exited 1 ∧
        (click_pulldown false).loggedError = true ∧
        (click_pulldown false).screenshotTaken = some "click_pulldown_debug_render.png") ∧
    ((do_login false true true).exited = some 1 ∧
        (do_login false true true).loggedError = true ∧
        (do_login false true true).screenshotTaken = some "login_debug_render.png") ∧
    ((scrape_genset_exercise true true (some "no digits")).result = ProcResult.exited 1 ∧
        (scrape_genset_exercise true true (some "no digits")).loggedError = true ∧
        (scrape_genset_exercise true true (some "no digits")).screenshots =
          ["genset_debug_render.png"]) :=
  ⟨C3_amended_holds.1 false rfl, C3_amended_holds.2.1 false true true (Or.inl rfl),
   C3_amended_holds.2.2.2.2.1 "no digits" (by decide)⟩

/-- C9, confirmed.  `click_pulldown` either returns `True` or terminates the
process with exit code 1; it never returns `False` or `None`, so the
`if not success:` failure branches in `scrape_runtime`, `scrape_battery` and
`scrape_genset_exercise` are unreachable for every input: the runtime and
battery scrapes never take the screenshots those branches would write, and
the genset branch condition is identically false. -/
theorem C9_click_pulldown_total :
    (∀ stepOk : Bool,
        (click_pulldown stepOk).result = ProcResult.ret true ∨
        (click_pulldown stepOk).result = ProcResult.exited 1) ∧
    (∀ (stepOk : Bool) (runtimeRaw : String),
        (scrape_runtime stepOk runtimeRaw).screenshots.contains "runtime_debug_render.png" =
          false) ∧
    (∀ (stepOk : Bool) (batteryRaw : String),
        (scrape_battery stepOk batteryRaw).screenshots.contains "battery_debug_render.png" =
          false) ∧
    (∀ stepOk : Bool, genset_not_success_branch stepOk = false) := by
  refine ⟨?_, ?_, ?_, ?_⟩
  · intro s
    cases s
    · exact Or.inr rfl
    · exact Or.inl rfl
  · intro s r
    cases s with
    | false => rfl
    | true =>
      cases hx : (pySplit r).head? with
      | none => simp [scrape_runtime, click_pulldown, hx]
      | some v => simp [scrape_runtime, click_pulldown, hx]
  · intro s b
    cases s with
    | false => rfl
    | true => rfl
  · intro s
    cases s <;> rfl

/-- C5, counterexample.  The claim states the sign-in step selects the first
visible candidate and clicks the nearest interactive ancestor of the matched
text node.  False: with an invisible first candidate and a visible second
one, the code takes `elements[0]` (the invisible one) and clicks its
immediate parent (the XPath `".."` node), a non-interactive `div`, not the
interactive `button` above it. -/
theorem C5_counterexample :
    sign_in_candidate [spanHidden, spanVisible] = some spanHidden ∧
    spec_sign_in_candidate [spanHidden, spanVisible] = some spanVisible ∧
    spanHidden ≠ spanVisible ∧
    (start_sign_in [spanHidden, spanVisible]).clickedTarget = some divEl ∧
    spec_click_target spanHidden = some btnEl ∧
    divEl ≠ btnEl := by
  refine ⟨rfl, rfl, ?_, rfl, rfl, ?_⟩
  · intro h
    injection h with h1 h2 h3 h4
    exact absurd h2 (by decide)
  · intro h
    injection h with h1 h2 h3 h4
    exact absurd h1 (by decide)

/-- C5, amended.  When multiple elements match the sign-in button text, the
step logs each candidate's visibility but selects the first candidate in
document order regardless of visibility, and clicks that candidate's
immediate parent node, whether or not the parent is interactive; with no
candidates, nothing is clicked. -/
theorem C5_amended_holds :
    (∀ (e : Element) (es : List Element), sign_in_candidate (e :: es) = some e) ∧
    (∀ (e : Element) (es : List Element),
        (start_sign_in (e :: es)).clickedTarget = e.ancestors.head?) ∧
    (start_sign_in []).clickedTarget = none :=
  ⟨fun _ _ => rfl, fun _ _ => rfl, rfl⟩

/-- C2, counterexample.  The claim states the deep-scope search returns the
first match in the combined order that enters a node's encapsulated scope at
the point the node is declared, before the node's siblings.  False: with a
shadow host declared first (its scope containing a match) and a matching
light-tree sibling after it, the first match in the claimed order is the
in-scope node, but `findInShadows` scans the entire light tree before any
scope and returns the later light-tree match. -/
theorem C2_counterexample :
    findInShadows isTargetTag [shadowHostNode, lightTargetNode] = some lightTargetNode ∧
    (claimedOrderL [shadowHostNode, lightTargetNode]).find? isTargetTag = some targetNode ∧
    lightTargetNode ≠ targetNode := by
  refine ⟨rfl, rfl, ?_⟩
  intro h
  injection h with h1 h2 h3 h4
  exact absurd h2 (by decide)

/-- C2, amended.  The deep-scope search scans a root's entire light tree
first — any light-tree match is returned before any encapsulated scope is
entered — and only then recurses depth-first into the scopes of the root's
descendants; a target inside a scope at arbitrary nesting depth k ≥ 0 is
still found when no light-tree match precedes it. -/
theorem C2_amended_holds :
    (∀ (p : Node → Bool) (cs : List Node) (el : Node),
        (lightListL cs).find? p = some el → findInShadows p cs = some el) ∧
    (∀ k : Nat, findInShadows isTargetTag [nestTree k] = some targetNode) := by
  constructor
  · intro p cs el h
    unfold findInShadows
    rw [findInShadowsF]
    rw [h]
  · intro k
    unfold findInShadows
    rw [shadowDepthL_nestTree]
    have h := findInShadowsF_nestTree k 0
    rwa [Nat.add_zero] at h

/-- C2, witness: on a one-node light tree whose node matches, the light-tree
match is returned. -/
theorem C2_witness : findInShadows isTargetTag [lightTargetNode] = some lightTargetNode :=
  C2_amended_holds.1 isTargetTag [lightTargetNode] lightTargetNode rfl

/-- C4, confirmed.  Given raw runtime text `"27.8 Hours"`, battery text
`"13.2"`, and exercise text `"Completed on Tuesday, March 4th 2025"`, the
normalization (runtime split keeping only the number, float coercion, fuzzy
date parse coerced to UTC) produces exactly runtime_hours = 27.8,
battery_voltage = 13.2,
last_exercise_date = `"2025-03-04T00:00:00+00:00"`. -/
theorem C4_payload_normalization :
    (scrape_runtime true "27.8 Hours").result = ProcResult.ret "27.8" ∧
    generate_ha_payload "27.8" "13.2" "Completed on Tuesday, March 4th 2025" =
      some (GenPayload.mk 27.8 13.2 "2025-03-04T00:00:00+00:00") := by
  constructor
  · decide
  · have h : generate_ha_payload "27.8" "13.2" "Completed on Tuesday, March 4th 2025" =
        some (GenPayload.mk (ratOfParts (false, 27, 8, 1)) (ratOfParts (false, 13, 2, 1))
          "2025-03-04T00:00:00+00:00") := rfl
    have h1 : ratOfParts (false, 27, 8, 1) = 27.8 := by norm_num [ratOfParts]
    have h2 : ratOfParts (false, 13, 2, 1) = 13.2 := by norm_num [ratOfParts]
    rw [h, h1, h2]

/-- C6, confirmed.  If any of the three extracted fields is absent (`None`
from the genset finder, or the `"NOT_FOUND"` sentinel from any finder), no
payload is printed and the extraction process exits 1: the genset gate
rejects `None`/`"NOT_FOUND"`, and `float("NOT_FOUND")` raises, which main's
broad handler turns into exit 1 before anything is printed; no payload with a
null or zero placeholder is ever emitted. -/
theorem C6_absent_field_no_payload (loginOk maintOk genOk notifOk tabOk : Bool)
    (runtimeRaw batteryRaw : String) (gensetRaw : Option String)
    (h : runtimeRaw = "NOT_FOUND" ∨ batteryRaw = "NOT_FOUND" ∨ gensetRaw = none ∨
      gensetRaw = some "NOT_FOUND") :
    (ccc10_main loginOk maintOk genOk notifOk tabOk runtimeRaw batteryRaw gensetRaw).stdout =
      none ∧
    (ccc10_main loginOk maintOk genOk notifOk tabOk runtimeRaw batteryRaw gensetRaw).exitCode =
      1 := by
  suffices hs : ccc10_main loginOk maintOk genOk notifOk tabOk runtimeRaw batteryRaw gensetRaw =
      MainRun.mk none 1 1 by
    rw [hs]
    exact ⟨rfl, rfl⟩
  unfold ccc10_main
  split
  · rfl
  · split
    · rfl
    · next rv hrv =>
      split
      · rfl
      · next bv hbv =>
        split
        · rfl
        · next gv hgv =>
          split
          · rfl
          · next pl hpl =>
            exfalso
            obtain ⟨hm, hr⟩ := scrape_runtime_ret hrv
            obtain ⟨hg2, hb⟩ := scrape_battery_ret hbv
            obtain ⟨hgr, hne, hfour⟩ := scrape_genset_ret hgv
            rcases h with h | h | h | h
            · subst h
              rw [show pySplit "NOT_FOUND" = ["NOT_FOUND"] from by decide] at hr
              injection hr with hr2
              rw [← hr2] at hpl
              rw [generate_notfound_runtime] at hpl
              exact Option.noConfusion hpl
            · subst h
              rw [hb] at hpl
              rw [generate_notfound_voltage] at hpl
              exact Option.noConfusion hpl
            · subst h
              exact Option.noConfusion hgr
            · subst h
              injection hgr with hg3
              rw [← hg3] at hfour
              exact absurd hfour (by decide)

/-- C6, witness: with the runtime finder returning the `"NOT_FOUND"` sentinel
and the other two fields well-formed, nothing is printed and the process
exits 1. -/
theorem C6_witness :
    (ccc10_main true true true true true "NOT_FOUND" "13.2"
      (some "Completed on Tuesday, March 4th 2025")).stdout = none ∧
    (ccc10_main true true true true true "NOT_FOUND" "13.2"
      (some "Completed on Tuesday, March 4th 2025")).exitCode = 1 :=
  C6_absent_field_no_payload true true true true true "NOT_FOUND" "13.2"
    (some "Completed on Tuesday, March 4th 2025") (Or.inl rfl)

/-- C10, confirmed.  A scraped exercise text that is empty or lacks a run of
four consecutive decimal digits (`re.search(r"\d{4}", ...)`) makes the
extraction process exit 1 with no payload; conversely, whenever a payload is
printed, the exercise string that reached payload construction was non-empty
and contained such a run. -/
theorem C10_exercise_gate :
    (∀ (loginOk maintOk genOk notifOk tabOk : Bool) (runtimeRaw batteryRaw gv : String),
        ((gv != "") && hasFourConsecutiveDigits gv) = false →
        ccc10_main loginOk maintOk genOk notifOk tabOk runtimeRaw batteryRaw (some gv) =
          MainRun.mk none 1 1) ∧
    (∀ (loginOk maintOk genOk notifOk tabOk : Bool) (runtimeRaw batteryRaw : String)
        (gensetRaw : Option String) (pl : GenPayload),
        (ccc10_main loginOk maintOk genOk notifOk tabOk runtimeRaw batteryRaw gensetRaw).stdout =
          some pl →
        ∃ gv, gensetRaw = some gv ∧ gv ≠ "" ∧ hasFourConsecutiveDigits gv = true) := by
  constructor
  · intro l m g n t r b gv hgate
    unfold ccc10_main
    split
    · rfl
    · split
      · rfl
      · split
        · rfl
        · split
          · rfl
          · next gv2 hgv2 =>
            exfalso
            obtain ⟨hgr, hne, hfour⟩ := scrape_genset_ret hgv2
            injection hgr with he
            rw [he] at hgate
            have hb : (gv2 != "") = true := bne_iff_ne.mpr hne
            rw [hfour, hb, Bool.and_true] at hgate
            exact Bool.noConfusion hgate
  · intro l m g n t r b gr pl h
    unfold ccc10_main at h
    split at h
    · simp at h
    · split at h
      · simp at h
      · split at h
        · simp at h
        · split at h
          · simp at h
          · next gv hgv =>
            obtain ⟨hgr, hne, hfour⟩ := scrape_genset_ret hgv
            exact ⟨gv, hgr, hne, hfour⟩

/-- C10, witness: an exercise text with no four-digit run aborts the run with
no payload, and a successful run certifies its exercise text passed the
gate. -/
theorem C10_witness :
    ccc10_main true true true true true "27.8 Hours" "13.2" (some "no date here") =
      MainRun.mk none 1 1 ∧
    ∃ gv, (some "Completed on Tuesday, March 4th 2025" : Option String) = some gv ∧
      gv ≠ "" ∧ hasFourConsecutiveDigits gv = true :=
  ⟨C10_exercise_gate.1 true true true true true "27.8 Hours" "13.2" "no date here" (by decide),
   C10_exercise_gate.2 true true true true true "27.8 Hours" "13.2"
     (some "Completed on Tuesday, March 4th 2025")
     (GenPayload.mk (ratOfParts (false, 27, 8, 1)) (ratOfParts (false, 13, 2, 1))
       "2025-03-04T00:00:00+00:00") rfl⟩

end CumminsHA
